import Mathlib

/-!
Shallow embedding of the cube state engine of `src/models.py`
(`class RubiksCube`).

A cube of size `n` holds six `n × n` sticker grids (`self.faces`, a dict
from face letter to a list of lists of one-letter color codes,
models.py lines 13-20).  We embed a sticker grid position as
`Face × Fin n × Fin n` (face, row, column) and the whole sticker state as a
function from positions to colors; `faces[f][i][j]` becomes `c (f, i, j)`.

Each Python move helper (`_move_U`, `_move_R`, ...) first rotates the
turned face's own grid through a temporary copy and then cycles four
border strips of the adjacent faces.  In every helper each sticker read
happens before that sticker is overwritten (the strips are copied or
written in a pipeline over disjoint indices), so each helper is a
simultaneous assignment: the new sticker at position `p` is the old sticker
at position `σ p` for a fixed map `σ` on positions.  We transcribe each
helper as that map (`uSrc`, `upSrc`, ... : new position ↦ source position),
with each clause cited to the Python line it comes from.

Python indices: for `n ≥ 1` every index used (`0`, `n-1`, `i`, `n-1-i`) is
in range.  For `n = 0` some helpers raise IndexError (caught by
`apply_move`, which then reports failure); the callers of the engine
construct only sizes in `[2,7]` (src/app.py lines 28-37), and theorems that
depend on it carry a `1 ≤ n` or `2 ≤ n` hypothesis.
-/

namespace RCube

/-- The six one-letter color codes of models.py lines 14-19
(White, Red, Green, Yellow, Orange, Blue). -/
inductive Color
  | W
  | R
  | G
  | Y
  | O
  | B
  deriving DecidableEq, Fintype, Repr

/-- The six face keys of the `self.faces` dict (models.py lines 13-20):
Up, Right, Front, Down, Left, Back. -/
inductive Face
  | U
  | R
  | F
  | D
  | L
  | B
  deriving DecidableEq, Fintype, Repr

/-- A sticker position: a face plus (row, column).  `faces[f][i][j]`. -/
abbrev Pos (n : Nat) := Face × Fin n × Fin n

/-- The sticker state of a cube of size `n`: the color at each position. -/
abbrev Cube (n : Nat) := Pos n → Color

/-- The index `0` of a row or column, with the bound `0 < n` recovered from
any inhabitant of `Fin n`. -/
def fin0 {n : Nat} (i : Fin n) : Fin n :=
  ⟨0, Nat.lt_of_le_of_lt (Nat.zero_le i.val) i.isLt⟩

/-- The index `n - 1` (Python `n-1`), with the bound recovered from `i`. -/
def finLast {n : Nat} (i : Fin n) : Fin n := (fin0 i).rev

/-- The canonical color of each face in a freshly constructed cube
(models.py lines 13-20: U=White, R=Red, F=Green, D=Yellow, L=Orange,
B=Blue). -/
def initColor : Face → Color
  | Face.U => Color.W
  | Face.R => Color.R
  | Face.F => Color.G
  | Face.D => Color.Y
  | Face.L => Color.O
  | Face.B => Color.B

/-- `RubiksCube.__init__` (models.py lines 10-21): every face is filled
with its canonical color. -/
def initCube (n : Nat) : Cube n := fun p => initColor p.1

/-!
The twelve move helpers, each as its source-position map: after the move,
the sticker at position `p` is the old sticker at position `mSrc p`.

`rotate_face_clockwise` (models.py lines 85-96) sets `f[j][n-1-i] =
temp[i][j]`, i.e. the new cell `(r, c)` holds the old cell `(n-1-c, r)`:
on the turned face the source of `(i, j)` is `(j.rev, i)`.
`rotate_face_counterclockwise` (lines 98-109) sets `f[n-1-j][i] =
temp[i][j]`: the source of `(i, j)` is `(j, i.rev)`.
-/

/-- `_move_U` (models.py lines 184-193): rotate U clockwise; then
`F[0] ← R[0]`, `R[0] ← B[0]`, `B[0] ← L[0]`, `L[0] ← temp` (old `F[0]`). -/
def uSrc {n : Nat} : Pos n → Pos n
  | (Face.U, i, j) => (Face.U, j.rev, i)
  | (Face.F, i, j) => if i.val = 0 then (Face.R, i, j) else (Face.F, i, j)
  | (Face.R, i, j) => if i.val = 0 then (Face.B, i, j) else (Face.R, i, j)
  | (Face.B, i, j) => if i.val = 0 then (Face.L, i, j) else (Face.B, i, j)
  | (Face.L, i, j) => if i.val = 0 then (Face.F, i, j) else (Face.L, i, j)
  | (Face.D, i, j) => (Face.D, i, j)

/-- `_move_U_prime` (models.py lines 195-204): rotate U counter-clockwise;
`F[0] ← L[0]`, `L[0] ← B[0]`, `B[0] ← R[0]`, `R[0] ← temp` (old `F[0]`). -/
def upSrc {n : Nat} : Pos n → Pos n
  | (Face.U, i, j) => (Face.U, j, i.rev)
  | (Face.F, i, j) => if i.val = 0 then (Face.L, i, j) else (Face.F, i, j)
  | (Face.L, i, j) => if i.val = 0 then (Face.B, i, j) else (Face.L, i, j)
  | (Face.B, i, j) => if i.val = 0 then (Face.R, i, j) else (Face.B, i, j)
  | (Face.R, i, j) => if i.val = 0 then (Face.F, i, j) else (Face.R, i, j)
  | (Face.D, i, j) => (Face.D, i, j)

/-- `_move_R` (models.py lines 206-217): rotate R clockwise; then for each
`i`: `U[i][n-1] ← F[i][n-1]`, `F[i][n-1] ← D[i][n-1]`,
`D[i][n-1] ← B[n-1-i][0]`, `B[n-1-i][0] ← temp[i]` (old `U[i][n-1]`). -/
def rSrc {n : Nat} : Pos n → Pos n
  | (Face.R, i, j) => (Face.R, j.rev, i)
  | (Face.U, i, j) => if j.val = n - 1 then (Face.F, i, j) else (Face.U, i, j)
  | (Face.F, i, j) => if j.val = n - 1 then (Face.D, i, j) else (Face.F, i, j)
  | (Face.D, i, j) => if j.val = n - 1 then (Face.B, i.rev, fin0 j) else (Face.D, i, j)
  | (Face.B, i, j) => if j.val = 0 then (Face.U, i.rev, finLast j) else (Face.B, i, j)
  | (Face.L, i, j) => (Face.L, i, j)

/-- `_move_R_prime` (models.py lines 219-229): rotate R counter-clockwise;
`U[i][n-1] ← B[n-1-i][0]`, `B[n-1-i][0] ← D[i][n-1]`,
`D[i][n-1] ← F[i][n-1]`, `F[i][n-1] ← temp[i]` (old `U[i][n-1]`). -/
def rpSrc {n : Nat} : Pos n → Pos n
  | (Face.R, i, j) => (Face.R, j, i.rev)
  | (Face.U, i, j) => if j.val = n - 1 then (Face.B, i.rev, fin0 j) else (Face.U, i, j)
  | (Face.B, i, j) => if j.val = 0 then (Face.D, i.rev, finLast j) else (Face.B, i, j)
  | (Face.D, i, j) => if j.val = n - 1 then (Face.F, i, j) else (Face.D, i, j)
  | (Face.F, i, j) => if j.val = n - 1 then (Face.U, i, j) else (Face.F, i, j)
  | (Face.L, i, j) => (Face.L, i, j)

/-- `_move_F` (models.py lines 231-242): rotate F clockwise; then
`U[n-1][i] ← L[n-1-i][n-1]`, `L[i][n-1] ← D[0][i]`,
`D[0][i] ← R[n-1-i][0]`, `R[i][0] ← temp[i]` (old `U[n-1][i]`). -/
def fSrc {n : Nat} : Pos n → Pos n
  | (Face.F, i, j) => (Face.F, j.rev, i)
  | (Face.U, i, j) => if i.val = n - 1 then (Face.L, j.rev, finLast i) else (Face.U, i, j)
  | (Face.L, i, j) => if j.val = n - 1 then (Face.D, fin0 j, i) else (Face.L, i, j)
  | (Face.D, i, j) => if i.val = 0 then (Face.R, j.rev, fin0 i) else (Face.D, i, j)
  | (Face.R, i, j) => if j.val = 0 then (Face.U, finLast j, i) else (Face.R, i, j)
  | (Face.B, i, j) => (Face.B, i, j)

/-- `_move_F_prime` (models.py lines 244-257): rotate F counter-clockwise;
`U[n-1][i] ← R[i][0]`, `R[i][0] ← D[0][n-1-i]`, `D[0][i] ← L[i][n-1]`,
`L[i][n-1] ← temp[n-1-i]` (old `U[n-1][n-1-i]`). -/
def fpSrc {n : Nat} : Pos n → Pos n
  | (Face.F, i, j) => (Face.F, j, i.rev)
  | (Face.U, i, j) => if i.val = n - 1 then (Face.R, j, fin0 i) else (Face.U, i, j)
  | (Face.R, i, j) => if j.val = 0 then (Face.D, fin0 j, i.rev) else (Face.R, i, j)
  | (Face.D, i, j) => if i.val = 0 then (Face.L, j, finLast i) else (Face.D, i, j)
  | (Face.L, i, j) => if j.val = n - 1 then (Face.U, finLast j, i.rev) else (Face.L, i, j)
  | (Face.B, i, j) => (Face.B, i, j)

/-- `_move_D` (models.py lines 259-268): rotate D clockwise; then
`F[n-1] ← L[n-1]`, `L[n-1] ← B[n-1]`, `B[n-1] ← R[n-1]`,
`R[n-1] ← temp` (old `F[n-1]`). -/
def dSrc {n : Nat} : Pos n → Pos n
  | (Face.D, i, j) => (Face.D, j.rev, i)
  | (Face.F, i, j) => if i.val = n - 1 then (Face.L, i, j) else (Face.F, i, j)
  | (Face.L, i, j) => if i.val = n - 1 then (Face.B, i, j) else (Face.L, i, j)
  | (Face.B, i, j) => if i.val = n - 1 then (Face.R, i, j) else (Face.B, i, j)
  | (Face.R, i, j) => if i.val = n - 1 then (Face.F, i, j) else (Face.R, i, j)
  | (Face.U, i, j) => (Face.U, i, j)

/-- `_move_D_prime` (models.py lines 270-279): rotate D counter-clockwise;
`F[n-1] ← R[n-1]`, `R[n-1] ← B[n-1]`, `B[n-1] ← L[n-1]`,
`L[n-1] ← temp` (old `F[n-1]`). -/
def dpSrc {n : Nat} : Pos n → Pos n
  | (Face.D, i, j) => (Face.D, j, i.rev)
  | (Face.F, i, j) => if i.val = n - 1 then (Face.R, i, j) else (Face.F, i, j)
  | (Face.R, i, j) => if i.val = n - 1 then (Face.B, i, j) else (Face.R, i, j)
  | (Face.B, i, j) => if i.val = n - 1 then (Face.L, i, j) else (Face.B, i, j)
  | (Face.L, i, j) => if i.val = n - 1 then (Face.F, i, j) else (Face.L, i, j)
  | (Face.U, i, j) => (Face.U, i, j)

/-- `_move_L` (models.py lines 281-291): rotate L clockwise; then
`U[i][0] ← B[n-1-i][n-1]`, `B[n-1-i][n-1] ← D[i][0]`,
`D[i][0] ← F[i][0]`, `F[i][0] ← temp[i]` (old `U[i][0]`). -/
def lSrc {n : Nat} : Pos n → Pos n
  | (Face.L, i, j) => (Face.L, j.rev, i)
  | (Face.U, i, j) => if j.val = 0 then (Face.B, i.rev, finLast j) else (Face.U, i, j)
  | (Face.B, i, j) => if j.val = n - 1 then (Face.D, i.rev, fin0 j) else (Face.B, i, j)
  | (Face.D, i, j) => if j.val = 0 then (Face.F, i, j) else (Face.D, i, j)
  | (Face.F, i, j) => if j.val = 0 then (Face.U, i, j) else (Face.F, i, j)
  | (Face.R, i, j) => (Face.R, i, j)

/-- `_move_L_prime` (models.py lines 293-303): rotate L counter-clockwise;
`U[i][0] ← F[i][0]`, `F[i][0] ← D[i][0]`, `D[i][0] ← B[n-1-i][n-1]`,
`B[n-1-i][n-1] ← temp[i]` (old `U[i][0]`). -/
def lpSrc {n : Nat} : Pos n → Pos n
  | (Face.L, i, j) => (Face.L, j, i.rev)
  | (Face.U, i, j) => if j.val = 0 then (Face.F, i, j) else (Face.U, i, j)
  | (Face.F, i, j) => if j.val = 0 then (Face.D, i, j) else (Face.F, i, j)
  | (Face.D, i, j) => if j.val = 0 then (Face.B, i.rev, finLast j) else (Face.D, i, j)
  | (Face.B, i, j) => if j.val = n - 1 then (Face.U, i.rev, fin0 j) else (Face.B, i, j)
  | (Face.R, i, j) => (Face.R, i, j)

/-- `_move_B` (models.py lines 305-318): rotate B clockwise; then
`U[0][i] ← R[i][n-1]`, `R[i][n-1] ← D[n-1][n-1-i]`, `D[n-1][i] ← L[i][0]`,
`L[i][0] ← temp[n-1-i]` (old `U[0][n-1-i]`). -/
def bSrc {n : Nat} : Pos n → Pos n
  | (Face.B, i, j) => (Face.B, j.rev, i)
  | (Face.U, i, j) => if i.val = 0 then (Face.R, j, finLast i) else (Face.U, i, j)
  | (Face.R, i, j) => if j.val = n - 1 then (Face.D, finLast j, i.rev) else (Face.R, i, j)
  | (Face.D, i, j) => if i.val = n - 1 then (Face.L, j, fin0 i) else (Face.D, i, j)
  | (Face.L, i, j) => if j.val = 0 then (Face.U, fin0 j, i.rev) else (Face.L, i, j)
  | (Face.F, i, j) => (Face.F, i, j)

/-- `_move_B_prime` (models.py lines 320-333): rotate B counter-clockwise;
`U[0][i] ← L[n-1-i][0]`, `L[i][0] ← D[n-1][i]`, `D[n-1][i] ← R[n-1-i][n-1]`,
`R[i][n-1] ← temp[i]` (old `U[0][i]`). -/
def bpSrc {n : Nat} : Pos n → Pos n
  | (Face.B, i, j) => (Face.B, j, i.rev)
  | (Face.U, i, j) => if i.val = 0 then (Face.L, j.rev, fin0 i) else (Face.U, i, j)
  | (Face.L, i, j) => if j.val = 0 then (Face.D, finLast j, i) else (Face.L, i, j)
  | (Face.D, i, j) => if i.val = n - 1 then (Face.R, j.rev, finLast i) else (Face.D, i, j)
  | (Face.R, i, j) => if j.val = n - 1 then (Face.U, fin0 j, i) else (Face.R, i, j)
  | (Face.F, i, j) => (Face.F, i, j)

/-- The token dispatch of `apply_move` (models.py lines 111-139): the twelve
recognized tokens, each mapped to its helper's source-position map; any
other token falls through to the `else: return False` branch (`none`). -/
def moveSrc (n : Nat) : String → Option (Pos n → Pos n)
  | "U" => some uSrc
  | "U'" => some upSrc
  | "R" => some rSrc
  | "R'" => some rpSrc
  | "F" => some fSrc
  | "F'" => some fpSrc
  | "D" => some dSrc
  | "D'" => some dpSrc
  | "L" => some lSrc
  | "L'" => some lpSrc
  | "B" => some bSrc
  | "B'" => some bpSrc
  | _ => none

/-- The 12-token move alphabet, in the order of the `moves` list of
`generate_scramble` (models.py line 153). -/
def moves : List String :=
  ["U", "U'", "R", "R'", "F", "F'", "D", "D'", "L", "L'", "B", "B'"]

/-- The full mutable state of a `RubiksCube` of size `n`: the sticker grids
and `self.move_history` (models.py lines 12-21). -/
structure CubeState (n : Nat) where
  faces : Cube n
  move_history : List String
  deriving DecidableEq

/-- A freshly constructed `RubiksCube(size)`: solved stickers, empty
history. -/
def initState (n : Nat) : CubeState n := ⟨initCube n, []⟩

/-- `apply_move` (models.py lines 111-144): on a recognized token, apply
the helper, append the token to `move_history` and return `True`; on any
other token return `False` and change nothing.  (The `try/except` around
the dispatch only fires for size 0, where some helpers raise IndexError
before mutating anything; theorems about sizes the callers construct carry
`1 ≤ n`.) -/
def apply_move {n : Nat} (s : CubeState n) (m : String) : Bool × CubeState n :=
  match moveSrc n m with
  | some σ => (true, ⟨fun p => s.faces (σ p), s.move_history ++ [m]⟩)
  | none => (false, s)

/-- `apply_move_sequence` (models.py lines 146-149): apply each token in
order via `apply_move`, ignoring the per-token success flag. -/
def apply_move_sequence {n : Nat} (s : CubeState n) : List String → CubeState n
  | [] => s
  | m :: ms => apply_move_sequence (apply_move s m).2 ms

/-- The reference index `size // 2` used by `is_solved`
(models.py lines 61-62), with the bound recovered from any row index. -/
def centerIdx {n : Nat} (i : Fin n) : Fin n :=
  ⟨n / 2, Nat.div_lt_self (Nat.lt_of_le_of_lt (Nat.zero_le i.val) i.isLt) Nat.one_lt_two⟩

/-- `is_solved` (models.py lines 58-68): every sticker of every face equals
that face's reference sticker `face[size//2][size//2]`. -/
def is_solved {n : Nat} (c : Cube n) : Prop :=
  ∀ p : Pos n, c p = c (p.1, centerIdx p.2.1, centerIdx p.2.1)

instance {n : Nat} (c : Cube n) : Decidable (is_solved c) := by
  unfold is_solved; infer_instance

/-- How many stickers of the cube carry the color `col` (the `color_counts`
histogram of `is_valid_state`, models.py lines 169-177; a sticker outside
the six codes is unrepresentable in the embedding, so the early
`return False` branch for an unknown color has no counterpart). -/
def colorCount {n : Nat} (c : Cube n) (col : Color) : Nat :=
  (Finset.univ.filter fun p : Pos n => c p = col).card

/-- `is_valid_state` (models.py lines 166-181): every one of the six colors
appears exactly `size * size` times. -/
def is_valid_state {n : Nat} (c : Cube n) : Prop :=
  ∀ col : Color, colorCount c col = n * n

instance {n : Nat} (c : Cube n) : Decidable (is_valid_state c) := by
  unfold is_valid_state; infer_instance

/-- `clone` (models.py lines 74-79): a fresh cube of the same size whose
faces are `json.loads(json.dumps(self.faces))` and whose history is
`self.move_history.copy()`.  The JSON round trip and the list copy are
value-faithful for this data (a dict of lists of lists of one-letter
strings), so on values the clone is the identical state. -/
def clone {n : Nat} (s : CubeState n) : CubeState n :=
  ⟨fun p => s.faces p, s.move_history ++ []⟩

/-- A caller holding the original and the clone side by side: in the
explicit-state-passing embedding of the mutable Python objects, moves on
one component act only on that component. -/
def cloneWorld {n : Nat} (s : CubeState n) : CubeState n × CubeState n :=
  (s, clone s)

/-- `random.choice` (models.py line 160) modelled against an oracle draw
`r`: pick the element at index `r` modulo the candidate list's length. -/
def chooseFrom (r : Nat) (l : List String) : String :=
  l.getD (r % l.length) "U"

/-- The candidate list of one scramble step (models.py line 159):
`available_moves = [m for m in moves if m[0] != last_face]`. -/
def scrambleAvail (lastFace : String) : List String :=
  moves.filter fun m => m.take 1 ≠ lastFace

/-- The loop of `generate_scramble` (models.py lines 157-162): `step`
indexes the oracle, `k` counts the remaining draws, `lastFace` is Python's
`last_face` (the one-character string `move[0]`, initially `""`). -/
def scrambleGo (r : Nat → Nat) : Nat → Nat → String → List String
  | _, 0, _ => []
  | step, k + 1, lastFace =>
    let mv := chooseFrom (r step) (scrambleAvail lastFace)
    mv :: scrambleGo r (step + 1) k (mv.take 1)

/-- `generate_scramble` (models.py lines 151-164): `length` draws, never
repeating the previous token's face letter.  The method reads nothing from
`self`, so the cube does not appear as an argument. -/
def generate_scramble (r : Nat → Nat) (length : Nat) : List String :=
  scrambleGo r 0 length ""

/-- `generate_scramble` as the method call on a cube state: the state is
only read (in fact not even that), so it is returned unchanged alongside
the scramble. -/
def generate_scramble_method {n : Nat} (s : CubeState n) (r : Nat → Nat)
    (length : Nat) : CubeState n × List String :=
  (s, generate_scramble r length)

/-- The inverse token of each recognized move: `F` undoes `F'` and vice
versa (the pairing named by the spec's round-trip property). -/
def inverseToken : String → String
  | "U" => "U'"
  | "U'" => "U"
  | "R" => "R'"
  | "R'" => "R"
  | "F" => "F'"
  | "F'" => "F"
  | "D" => "D'"
  | "D'" => "D"
  | "L" => "L'"
  | "L'" => "L"
  | "B" => "B'"
  | "B'" => "B"
  | m => m

/-- The face turned by a recognized token (the face letter). -/
def turnedFace : String → Option Face
  | "U" => some Face.U
  | "U'" => some Face.U
  | "R" => some Face.R
  | "R'" => some Face.R
  | "F" => some Face.F
  | "F'" => some Face.F
  | "D" => some Face.D
  | "D'" => some Face.D
  | "L" => some Face.L
  | "L'" => some Face.L
  | "B" => some Face.B
  | "B'" => some Face.B
  | _ => none

/-- The face opposite a given face on the cube (U↔D, R↔L, F↔B). -/
def oppositeFace : Face → Face
  | Face.U => Face.D
  | Face.D => Face.U
  | Face.R => Face.L
  | Face.L => Face.R
  | Face.F => Face.B
  | Face.B => Face.F

/-- The single border row or column that a turn of face `t` may write on
each adjacent face, read off the move helpers: turning `t` writes, on each
of the four faces adjacent to `t`, exactly the line listed here, and writes
nothing on any other non-turned face. -/
def onStrip {n : Nat} (t : Face) (p : Pos n) : Prop :=
  match t, p with
  | Face.U, (f, i, _) => (f = Face.F ∨ f = Face.R ∨ f = Face.B ∨ f = Face.L) ∧ i.val = 0
  | Face.D, (f, i, _) => (f = Face.F ∨ f = Face.R ∨ f = Face.B ∨ f = Face.L) ∧ i.val = n - 1
  | Face.R, (f, _, j) =>
      ((f = Face.U ∨ f = Face.F ∨ f = Face.D) ∧ j.val = n - 1) ∨ (f = Face.B ∧ j.val = 0)
  | Face.L, (f, _, j) =>
      ((f = Face.U ∨ f = Face.F ∨ f = Face.D) ∧ j.val = 0) ∨ (f = Face.B ∧ j.val = n - 1)
  | Face.F, (f, i, j) =>
      (f = Face.U ∧ i.val = n - 1) ∨ (f = Face.R ∧ j.val = 0) ∨
      (f = Face.D ∧ i.val = 0) ∨ (f = Face.L ∧ j.val = n - 1)
  | Face.B, (f, i, j) =>
      (f = Face.U ∧ i.val = 0) ∨ (f = Face.R ∧ j.val = n - 1) ∨
      (f = Face.D ∧ i.val = n - 1) ∨ (f = Face.L ∧ j.val = 0)

/-- The face whose canonical color is `col` (inverse of `initColor`). -/
def colFace : Color → Face
  | Color.W => Face.U
  | Color.R => Face.R
  | Color.G => Face.F
  | Color.Y => Face.D
  | Color.O => Face.L
  | Color.B => Face.B

/-- An externally corrupted 3×3 state: every sticker of every face is
white (never produced by the engine itself). -/
def allWhite : Cube 3 := fun _ => Color.W

/-- The four-move sequence `["R", "U", "R\'", "U\'"]` of the spec's 3×3
scenario. -/
def sexySeq : List String := ["R", "U", "R'", "U'"]

/-- Six repetitions of `sexySeq`: 24 tokens. -/
def sexySeq6 : List String :=
  sexySeq ++ sexySeq ++ sexySeq ++ sexySeq ++ sexySeq ++ sexySeq

/-!
Inverse round trips of the twelve source-position maps: each prime helper
undoes its plain helper position by position, in both orders.
-/

theorem uSrc_upSrc {n : Nat} (p : Pos n) : uSrc (upSrc p) = p := by
  obtain ⟨f, i, j⟩ := p
  cases f <;>
    simp only [upSrc] <;>
    (try split_ifs) <;>
    simp_all [uSrc, fin0, finLast, Fin.rev_rev, Fin.ext_iff, Fin.val_rev, Prod.ext_iff] <;>
    (try omega)

theorem upSrc_uSrc {n : Nat} (p : Pos n) : upSrc (uSrc p) = p := by
  obtain ⟨f, i, j⟩ := p
  cases f <;>
    simp only [uSrc] <;>
    (try split_ifs) <;>
    simp_all [upSrc, fin0, finLast, Fin.rev_rev, Fin.ext_iff, Fin.val_rev, Prod.ext_iff] <;>
    (try omega)

theorem rSrc_rpSrc {n : Nat} (p : Pos n) : rSrc (rpSrc p) = p := by
  obtain ⟨f, i, j⟩ := p
  cases f <;>
    simp only [rpSrc] <;>
    (try split_ifs) <;>
    simp_all [rSrc, fin0, finLast, Fin.rev_rev, Fin.ext_iff, Fin.val_rev, Prod.ext_iff] <;>
    (try omega)

theorem rpSrc_rSrc {n : Nat} (p : Pos n) : rpSrc (rSrc p) = p := by
  obtain ⟨f, i, j⟩ := p
  cases f <;>
    simp only [rSrc] <;>
    (try split_ifs) <;>
    simp_all [rpSrc, fin0, finLast, Fin.rev_rev, Fin.ext_iff, Fin.val_rev, Prod.ext_iff] <;>
    (try omega)

theorem fSrc_fpSrc {n : Nat} (p : Pos n) : fSrc (fpSrc p) = p := by
  obtain ⟨f, i, j⟩ := p
  cases f <;>
    simp only [fpSrc] <;>
    (try split_ifs) <;>
    simp_all [fSrc, fin0, finLast, Fin.rev_rev, Fin.ext_iff, Fin.val_rev, Prod.ext_iff] <;>
    (try omega)

theorem fpSrc_fSrc {n : Nat} (p : Pos n) : fpSrc (fSrc p) = p := by
  obtain ⟨f, i, j⟩ := p
  cases f <;>
    simp only [fSrc] <;>
    (try split_ifs) <;>
    simp_all [fpSrc, fin0, finLast, Fin.rev_rev, Fin.ext_iff, Fin.val_rev, Prod.ext_iff] <;>
    (try omega)

theorem dSrc_dpSrc {n : Nat} (p : Pos n) : dSrc (dpSrc p) = p := by
  obtain ⟨f, i, j⟩ := p
  cases f <;>
    simp only [dpSrc] <;>
    (try split_ifs) <;>
    simp_all [dSrc, fin0, finLast, Fin.rev_rev, Fin.ext_iff, Fin.val_rev, Prod.ext_iff] <;>
    (try omega)

theorem dpSrc_dSrc {n : Nat} (p : Pos n) : dpSrc (dSrc p) = p := by
  obtain ⟨f, i, j⟩ := p
  cases f <;>
    simp only [dSrc] <;>
    (try split_ifs) <;>
    simp_all [dpSrc, fin0, finLast, Fin.rev_rev, Fin.ext_iff, Fin.val_rev, Prod.ext_iff] <;>
    (try omega)

theorem lSrc_lpSrc {n : Nat} (p : Pos n) : lSrc (lpSrc p) = p := by
  obtain ⟨f, i, j⟩ := p
  cases f <;>
    simp only [lpSrc] <;>
    (try split_ifs) <;>
    simp_all [lSrc, fin0, finLast, Fin.rev_rev, Fin.ext_iff, Fin.val_rev, Prod.ext_iff] <;>
    (try omega)

theorem lpSrc_lSrc {n : Nat} (p : Pos n) : lpSrc (lSrc p) = p := by
  obtain ⟨f, i, j⟩ := p
  cases f <;>
    simp only [lSrc] <;>
    (try split_ifs) <;>
    simp_all [lpSrc, fin0, finLast, Fin.rev_rev, Fin.ext_iff, Fin.val_rev, Prod.ext_iff] <;>
    (try omega)

theorem bSrc_bpSrc {n : Nat} (p : Pos n) : bSrc (bpSrc p) = p := by
  obtain ⟨f, i, j⟩ := p
  cases f <;>
    simp only [bpSrc] <;>
    (try split_ifs) <;>
    simp_all [bSrc, fin0, finLast, Fin.rev_rev, Fin.ext_iff, Fin.val_rev, Prod.ext_iff] <;>
    (try omega)

theorem bpSrc_bSrc {n : Nat} (p : Pos n) : bpSrc (bSrc p) = p := by
  obtain ⟨f, i, j⟩ := p
  cases f <;>
    simp only [bSrc] <;>
    (try split_ifs) <;>
    simp_all [bpSrc, fin0, finLast, Fin.rev_rev, Fin.ext_iff, Fin.val_rev, Prod.ext_iff] <;>
    (try omega)

/-!
Order four: each source-position map returns every position to itself
after four applications.
-/

theorem u4Src {n : Nat} (p : Pos n) : uSrc (uSrc (uSrc (uSrc p))) = p := by
  obtain ⟨f, i, j⟩ := p
  cases f
  case U => simp [uSrc, Fin.rev_rev]
  case D => simp [uSrc]
  all_goals by_cases h : i.val = 0 <;> simp [uSrc, h]

theorem d4Src {n : Nat} (p : Pos n) : dSrc (dSrc (dSrc (dSrc p))) = p := by
  obtain ⟨f, i, j⟩ := p
  cases f
  case D => simp [dSrc, Fin.rev_rev]
  case U => simp [dSrc]
  all_goals by_cases h : i.val = n - 1 <;> simp [dSrc, h]

theorem r4Src {n : Nat} (p : Pos n) : rSrc (rSrc (rSrc (rSrc p))) = p := by
  obtain ⟨f, i, j⟩ := p
  cases f
  case R => simp [rSrc, Fin.rev_rev]
  case L => simp [rSrc]
  case B =>
    by_cases h : j.val = 0 <;>
      simp_all [rSrc, fin0, finLast, Fin.rev_rev, Fin.ext_iff, Fin.val_rev] <;> (try omega)
  all_goals
    by_cases h : j.val = n - 1 <;>
      simp_all [rSrc, fin0, finLast, Fin.rev_rev, Fin.ext_iff, Fin.val_rev] <;> (try omega)

theorem l4Src {n : Nat} (p : Pos n) : lSrc (lSrc (lSrc (lSrc p))) = p := by
  obtain ⟨f, i, j⟩ := p
  cases f
  case L => simp [lSrc, Fin.rev_rev]
  case R => simp [lSrc]
  case B =>
    by_cases h : j.val = n - 1 <;>
      simp_all [lSrc, fin0, finLast, Fin.rev_rev, Fin.ext_iff, Fin.val_rev] <;> (try omega)
  all_goals
    by_cases h : j.val = 0 <;>
      simp_all [lSrc, fin0, finLast, Fin.rev_rev, Fin.ext_iff, Fin.val_rev] <;> (try omega)

theorem f4Src {n : Nat} (p : Pos n) : fSrc (fSrc (fSrc (fSrc p))) = p := by
  obtain ⟨f, i, j⟩ := p
  cases f
  case F => simp [fSrc, Fin.rev_rev]
  case B => simp [fSrc]
  case U =>
    by_cases h : i.val = n - 1 <;>
      simp_all [fSrc, fin0, finLast, Fin.rev_rev, Fin.ext_iff, Fin.val_rev] <;> (try omega)
  case D =>
    by_cases h : i.val = 0 <;>
      simp_all [fSrc, fin0, finLast, Fin.rev_rev, Fin.ext_iff, Fin.val_rev] <;> (try omega)
  case R =>
    by_cases h : j.val = 0 <;>
      simp_all [fSrc, fin0, finLast, Fin.rev_rev, Fin.ext_iff, Fin.val_rev] <;> (try omega)
  case L =>
    by_cases h : j.val = n - 1 <;>
      simp_all [fSrc, fin0, finLast, Fin.rev_rev, Fin.ext_iff, Fin.val_rev] <;> (try omega)

theorem b4Src {n : Nat} (p : Pos n) : bSrc (bSrc (bSrc (bSrc p))) = p := by
  obtain ⟨f, i, j⟩ := p
  cases f
  case B => simp [bSrc, Fin.rev_rev]
  case F => simp [bSrc]
  case U =>
    by_cases h : i.val = 0 <;>
      simp_all [bSrc, fin0, finLast, Fin.rev_rev, Fin.ext_iff, Fin.val_rev] <;> (try omega)
  case D =>
    by_cases h : i.val = n - 1 <;>
      simp_all [bSrc, fin0, finLast, Fin.rev_rev, Fin.ext_iff, Fin.val_rev] <;> (try omega)
  case R =>
    by_cases h : j.val = n - 1 <;>
      simp_all [bSrc, fin0, finLast, Fin.rev_rev, Fin.ext_iff, Fin.val_rev] <;> (try omega)
  case L =>
    by_cases h : j.val = 0 <;>
      simp_all [bSrc, fin0, finLast, Fin.rev_rev, Fin.ext_iff, Fin.val_rev] <;> (try omega)

theorem up4Src {n : Nat} (p : Pos n) :
    upSrc (upSrc (upSrc (upSrc p))) = p := by
  calc upSrc (upSrc (upSrc (upSrc p)))
      = upSrc (upSrc (upSrc (upSrc (uSrc (uSrc (uSrc (uSrc p))))))) := by
        rw [u4Src]
    _ = p := by simp only [upSrc_uSrc]

theorem rp4Src {n : Nat} (p : Pos n) :
    rpSrc (rpSrc (rpSrc (rpSrc p))) = p := by
  calc rpSrc (rpSrc (rpSrc (rpSrc p)))
      = rpSrc (rpSrc (rpSrc (rpSrc (rSrc (rSrc (rSrc (rSrc p))))))) := by
        rw [r4Src]
    _ = p := by simp only [rpSrc_rSrc]

theorem fp4Src {n : Nat} (p : Pos n) :
    fpSrc (fpSrc (fpSrc (fpSrc p))) = p := by
  calc fpSrc (fpSrc (fpSrc (fpSrc p)))
      = fpSrc (fpSrc (fpSrc (fpSrc (fSrc (fSrc (fSrc (fSrc p))))))) := by
        rw [f4Src]
    _ = p := by simp only [fpSrc_fSrc]

theorem dp4Src {n : Nat} (p : Pos n) :
    dpSrc (dpSrc (dpSrc (dpSrc p))) = p := by
  calc dpSrc (dpSrc (dpSrc (dpSrc p)))
      = dpSrc (dpSrc (dpSrc (dpSrc (dSrc (dSrc (dSrc (dSrc p))))))) := by
        rw [d4Src]
    _ = p := by simp only [dpSrc_dSrc]

theorem lp4Src {n : Nat} (p : Pos n) :
    lpSrc (lpSrc (lpSrc (lpSrc p))) = p := by
  calc lpSrc (lpSrc (lpSrc (lpSrc p)))
      = lpSrc (lpSrc (lpSrc (lpSrc (lSrc (lSrc (lSrc (lSrc p))))))) := by
        rw [l4Src]
    _ = p := by simp only [lpSrc_lSrc]

theorem bp4Src {n : Nat} (p : Pos n) :
    bpSrc (bpSrc (bpSrc (bpSrc p))) = p := by
  calc bpSrc (bpSrc (bpSrc (bpSrc p)))
      = bpSrc (bpSrc (bpSrc (bpSrc (bSrc (bSrc (bSrc (bSrc p))))))) := by
        rw [b4Src]
    _ = p := by simp only [bpSrc_bSrc]

/-!
Bijectivity of the source-position maps, and conservation of the color
histogram.
-/

theorem bij_of_inv {α : Type} {σ τ : α → α} (hστ : ∀ x, σ (τ x) = x)
    (hτσ : ∀ x, τ (σ x) = x) : Function.Bijective σ :=
  ⟨Function.LeftInverse.injective hτσ, fun y => ⟨τ y, hστ y⟩⟩

theorem moveSrc_bijective {n : Nat} (m : String) (σ : Pos n → Pos n)
    (h : moveSrc n m = some σ) : Function.Bijective σ := by
  unfold moveSrc at h
  split at h <;> cases h
  · exact bij_of_inv uSrc_upSrc upSrc_uSrc
  · exact bij_of_inv upSrc_uSrc uSrc_upSrc
  · exact bij_of_inv rSrc_rpSrc rpSrc_rSrc
  · exact bij_of_inv rpSrc_rSrc rSrc_rpSrc
  · exact bij_of_inv fSrc_fpSrc fpSrc_fSrc
  · exact bij_of_inv fpSrc_fSrc fSrc_fpSrc
  · exact bij_of_inv dSrc_dpSrc dpSrc_dSrc
  · exact bij_of_inv dpSrc_dSrc dSrc_dpSrc
  · exact bij_of_inv lSrc_lpSrc lpSrc_lSrc
  · exact bij_of_inv lpSrc_lSrc lSrc_lpSrc
  · exact bij_of_inv bSrc_bpSrc bpSrc_bSrc
  · exact bij_of_inv bpSrc_bSrc bSrc_bpSrc

theorem initColor_eq_iff (f : Face) (col : Color) :
    initColor f = col ↔ f = colFace col := by
  cases f <;> cases col <;> simp [initColor, colFace]

theorem colorCount_init {n : Nat} (col : Color) :
    colorCount (initCube n) col = n * n := by
  unfold colorCount initCube
  rw [Finset.card_filter, Fintype.sum_prod_type]
  simp [initColor_eq_iff, Finset.sum_ite_eq, Finset.sum_const, smul_eq_mul, mul_ite]

theorem colorCount_comp {n : Nat} {σ : Pos n → Pos n}
    (hσ : Function.Bijective σ) (c : Cube n) (col : Color) :
    colorCount (fun p => c (σ p)) col = colorCount c col := by
  unfold colorCount
  rw [Finset.card_filter, Finset.card_filter]
  exact Fintype.sum_bijective σ hσ _ _ (fun x => rfl)

theorem is_valid_apply_move {n : Nat} (s : CubeState n) (m : String)
    (h : is_valid_state s.faces) : is_valid_state (apply_move s m).2.faces := by
  unfold apply_move
  cases hm : moveSrc n m with
  | none => exact h
  | some σ =>
    intro col
    exact (colorCount_comp (moveSrc_bijective m σ hm) s.faces col).trans (h col)

theorem is_valid_apply_move_sequence {n : Nat} (s : CubeState n)
    (ms : List String) (h : is_valid_state s.faces) :
    is_valid_state (apply_move_sequence s ms).faces := by
  induction ms generalizing s with
  | nil => exact h
  | cons m ms ih => exact ih _ (is_valid_apply_move s m h)

theorem moveSrc_none_of_not_mem {n : Nat} {m : String} (hm : m ∉ moves) :
    moveSrc n m = none := by
  unfold moveSrc
  split <;> simp_all [moves]

theorem moveSrc_isSome_of_mem {n : Nat} {m : String} (hm : m ∈ moves) :
    ∃ σ : Pos n → Pos n, moveSrc n m = some σ := by
  simp only [moves, List.mem_cons, List.not_mem_nil, or_false] at hm
  rcases hm with rfl | rfl | rfl | rfl | rfl | rfl | rfl | rfl | rfl | rfl | rfl | rfl <;> exact ⟨_, rfl⟩

theorem history_length {n : Nat} (s : CubeState n) (ms : List String) :
    (apply_move_sequence s ms).move_history.length
      = s.move_history.length + (ms.filter fun m => decide (m ∈ moves)).length := by
  induction ms generalizing s with
  | nil => simp [apply_move_sequence]
  | cons m ms ih =>
    unfold apply_move_sequence
    by_cases hm : m ∈ moves
    · obtain ⟨σ, hσ⟩ := moveSrc_isSome_of_mem (n := n) hm
      rw [ih]
      unfold apply_move
      rw [hσ]
      simp [hm]
      omega
    · rw [ih]
      unfold apply_move
      rw [moveSrc_none_of_not_mem hm]
      simp [hm]

/-- C1: for every move token `m` in the 12-token alphabet and every cube
size in `[2,7]`, starting from any state (in particular any reachable one),
applying `m` and then the inverse token of `m` restores every sticker of
every face to its pre-move value. -/
theorem claim1 {n : Nat} (h2 : 2 ≤ n) (h7 : n ≤ 7) (m : String) (hm : m ∈ moves)
    (s : CubeState n) :
    ((apply_move (apply_move s m).2 (inverseToken m)).2).faces = s.faces := by
  simp only [moves, List.mem_cons, List.not_mem_nil, or_false] at hm
  rcases hm with rfl | rfl | rfl | rfl | rfl | rfl | rfl | rfl | rfl | rfl | rfl | rfl
  · funext p
    exact congrArg s.faces (uSrc_upSrc p)
  · funext p
    exact congrArg s.faces (upSrc_uSrc p)
  · funext p
    exact congrArg s.faces (rSrc_rpSrc p)
  · funext p
    exact congrArg s.faces (rpSrc_rSrc p)
  · funext p
    exact congrArg s.faces (fSrc_fpSrc p)
  · funext p
    exact congrArg s.faces (fpSrc_fSrc p)
  · funext p
    exact congrArg s.faces (dSrc_dpSrc p)
  · funext p
    exact congrArg s.faces (dpSrc_dSrc p)
  · funext p
    exact congrArg s.faces (lSrc_lpSrc p)
  · funext p
    exact congrArg s.faces (lpSrc_lSrc p)
  · funext p
    exact congrArg s.faces (bSrc_bpSrc p)
  · funext p
    exact congrArg s.faces (bpSrc_bSrc p)

/-- C1 witness at size 3, token `F`, on the fresh state. -/
theorem claim1_witness :
    ((apply_move (apply_move (initState 3) "F").2 (inverseToken "F")).2).faces
      = (initState 3).faces :=
  claim1 (by decide) (by decide) "F" (by decide) (initState 3)

/-- C2: for every move token in the 12-token alphabet and every cube size
in `[2,7]`, applying the token four times in succession from any state
restores the exact prior sticker state. -/
theorem claim2 {n : Nat} (h2 : 2 ≤ n) (h7 : n ≤ 7) (m : String) (hm : m ∈ moves)
    (s : CubeState n) :
    (apply_move (apply_move (apply_move (apply_move s m).2 m).2 m).2 m).2.faces
      = s.faces := by
  simp only [moves, List.mem_cons, List.not_mem_nil, or_false] at hm
  rcases hm with rfl | rfl | rfl | rfl | rfl | rfl | rfl | rfl | rfl | rfl | rfl | rfl
  · funext p
    exact congrArg s.faces (u4Src p)
  · funext p
    exact congrArg s.faces (up4Src p)
  · funext p
    exact congrArg s.faces (r4Src p)
  · funext p
    exact congrArg s.faces (rp4Src p)
  · funext p
    exact congrArg s.faces (f4Src p)
  · funext p
    exact congrArg s.faces (fp4Src p)
  · funext p
    exact congrArg s.faces (d4Src p)
  · funext p
    exact congrArg s.faces (dp4Src p)
  · funext p
    exact congrArg s.faces (l4Src p)
  · funext p
    exact congrArg s.faces (lp4Src p)
  · funext p
    exact congrArg s.faces (b4Src p)
  · funext p
    exact congrArg s.faces (bp4Src p)

/-- C2 witness at size 4, token `R`, on the fresh state (the spec's 4×4
scenario). -/
theorem claim2_witness :
    (apply_move (apply_move (apply_move (apply_move (initState 4) "R").2 "R").2 "R").2
        "R").2.faces = (initState 4).faces :=
  claim2 (by decide) (by decide) "R" (by decide) (initState 4)

/-- C3: for every size `n ≥ 1` and every token sequence applied to a
freshly constructed cube, each of the six colors appears exactly `n * n`
times: `is_valid_state` holds in every reachable state. -/
theorem claim3 {n : Nat} (hn : 1 ≤ n) (ms : List String) :
    is_valid_state (apply_move_sequence (initState n) ms).faces :=
  is_valid_apply_move_sequence _ ms fun col => colorCount_init col

/-- C3 witness at size 2 on a sequence with an unrecognized token. -/
theorem claim3_witness :
    is_valid_state (apply_move_sequence (initState 2) ["R", "x", "U'"]).faces :=
  claim3 (by decide) ["R", "x", "U'"]

/-- C4: on a 3×3 cube starting from the solved state, the 24 tokens of six
repetitions of `["R", "U", "R\x27", "U\x27"]` return the cube to the solved
state. -/
theorem claim4 : is_solved (apply_move_sequence (initState 3) sexySeq6).faces := by
  decide

/-- C5: an unrecognized token returns `false` and leaves the state (faces
and history) unchanged; a recognized token returns `true` and appends
exactly that token; over any sequence the history grows by exactly the
number of recognized tokens. -/
theorem claim5 {n : Nat} (hn : 1 ≤ n) (s : CubeState n) :
    (∀ m : String, m ∉ moves → apply_move s m = (false, s)) ∧
    (∀ m ∈ moves, (apply_move s m).1 = true ∧
      (apply_move s m).2.move_history = s.move_history ++ [m]) ∧
    (∀ ms : List String, (apply_move_sequence s ms).move_history.length
      = s.move_history.length + (ms.filter fun m => decide (m ∈ moves)).length) := by
  refine ⟨?_, ?_, fun ms => history_length s ms⟩
  · intro m hm
    unfold apply_move
    rw [moveSrc_none_of_not_mem hm]
  · intro m hm
    simp only [moves, List.mem_cons, List.not_mem_nil, or_false] at hm
    rcases hm with rfl | rfl | rfl | rfl | rfl | rfl | rfl | rfl | rfl | rfl | rfl | rfl <;> exact ⟨rfl, rfl⟩

/-- C5 witness at size 3: the wide token `F2` is rejected with no state
change, the token `R` is accepted. -/
theorem claim5_witness :
    apply_move (initState 3) "F2" = (false, initState 3) ∧
      (apply_move (initState 3) "R").1 = true :=
  ⟨(claim5 (by decide) (initState 3)).1 "F2" (by decide),
   ((claim5 (by decide) (initState 3)).2.1 "R" (by decide)).1⟩

/-- C6: a freshly constructed cube of any size in `[2,7]` is solved; after
any single recognized move it is not solved; and `is_solved` holds iff
every sticker of every face equals that face's reference sticker at
`[size/2][size/2]`. -/
theorem claim6 {n : Nat} (h2 : 2 ≤ n) (h7 : n ≤ 7) :
    is_solved (initCube n) ∧
    (∀ m ∈ moves, ¬ is_solved (apply_move (initState n) m).2.faces) ∧
    (∀ c : Cube n, is_solved c ↔
      ∀ (f : Face) (i j : Fin n),
        c (f, i, j) = c (f, ⟨n / 2, by omega⟩, ⟨n / 2, by omega⟩)) := by
  refine ⟨fun p => rfl, ?_, ?_⟩
  · interval_cases n
    all_goals decide
  · intro c
    exact ⟨fun h f i j => h (f, i, j), fun h p => h p.1 p.2.1 p.2.2⟩

/-- C6 witness at size 4: fresh cube solved, not solved after one `R`. -/
theorem claim6_witness :
    is_solved (initCube 4) ∧ ¬ is_solved (apply_move (initState 4) "R").2.faces :=
  ⟨(claim6 (by decide) (by decide)).1,
   (claim6 (by decide) (by decide)).2.1 "R" (by decide)⟩

theorem scramble_available_ne_nil (lastFace : String) :
    scrambleAvail lastFace ≠ [] := by
  unfold scrambleAvail
  rcases eq_or_ne ("U".take 1) lastFace with hU | hU
  · refine List.ne_nil_of_mem (a := "R") (List.mem_filter.mpr ⟨by simp [moves], ?_⟩)
    rw [← hU]
    decide
  · refine List.ne_nil_of_mem (a := "U") (List.mem_filter.mpr ⟨by simp [moves], ?_⟩)
    simpa using hU

theorem chooseFrom_mem (r : Nat) (l : List String) (h : l ≠ []) :
    chooseFrom r l ∈ l := by
  unfold chooseFrom
  have hl : r % l.length < l.length := Nat.mod_lt _ (List.length_pos.mpr h)
  rw [List.getD_eq_getElem l _ hl]
  exact List.getElem_mem hl

theorem scrambleAvail_spec (lastFace m : String) (hm : m ∈ scrambleAvail lastFace) :
    m ∈ moves ∧ m.take 1 ≠ lastFace := by
  unfold scrambleAvail at hm
  refine ⟨(List.mem_filter.mp hm).1, ?_⟩
  simpa using (List.mem_filter.mp hm).2

theorem scrambleGo_spec (r : Nat → Nat) (k step : Nat) (lastFace : String) :
    (scrambleGo r step k lastFace).length = k ∧
    (∀ m ∈ scrambleGo r step k lastFace, m ∈ moves) ∧
    (∀ m, (scrambleGo r step k lastFace).head? = some m → m.take 1 ≠ lastFace) ∧
    List.Chain' (fun a b => a.take 1 ≠ b.take 1) (scrambleGo r step k lastFace) := by
  induction k generalizing step lastFace with
  | zero => simp [scrambleGo]
  | succ k ih =>
    have hmem : chooseFrom (r step) (scrambleAvail lastFace) ∈ scrambleAvail lastFace :=
      chooseFrom_mem _ _ (scramble_available_ne_nil lastFace)
    obtain ⟨hmv_moves, hmv_last⟩ := scrambleAvail_spec lastFace _ hmem
    obtain ⟨ih1, ih2, ih3, ih4⟩ :=
      ih (step + 1) ((chooseFrom (r step) (scrambleAvail lastFace)).take 1)
    refine ⟨by simp [scrambleGo, ih1], ?_, ?_, ?_⟩
    · intro m hm
      rcases List.mem_cons.mp hm with rfl | hm
      · exact hmv_moves
      · exact ih2 m hm
    · intro m hm
      rw [show scrambleGo r step (k + 1) lastFace
            = chooseFrom (r step) (scrambleAvail lastFace)
              :: scrambleGo r (step + 1) k
                ((chooseFrom (r step) (scrambleAvail lastFace)).take 1) from rfl,
          List.head?_cons, Option.some_inj] at hm
      exact hm ▸ hmv_last
    · rw [show scrambleGo r step (k + 1) lastFace
            = chooseFrom (r step) (scrambleAvail lastFace)
              :: scrambleGo r (step + 1) k
                ((chooseFrom (r step) (scrambleAvail lastFace)).take 1) from rfl]
      exact List.chain'_cons'.mpr ⟨fun b hb => (ih3 b hb).symm, ih4⟩

/-- C7: for every oracle and length, `generate_scramble` returns exactly
`length` tokens from the 12-token alphabet with no two consecutive tokens
on the same face letter, and the method leaves the cube state untouched
(the moves are returned, not applied). -/
theorem claim7 (r : Nat → Nat) (len : Nat) :
    (generate_scramble r len).length = len ∧
    (∀ m ∈ generate_scramble r len, m ∈ moves) ∧
    List.Chain' (fun a b => a.take 1 ≠ b.take 1) (generate_scramble r len) ∧
    (∀ (n : Nat) (s : CubeState n),
      generate_scramble_method s r len = (s, generate_scramble r len)) := by
  obtain ⟨h1, h2, _, h4⟩ := scrambleGo_spec r len 0 ""
  exact ⟨h1, h2, h4, fun n s => rfl⟩

/-- C9: a clone has equal faces and equal move history, and in the
explicit-state-passing embedding of the two objects, applying any move
sequence to the clone component leaves the original component exactly `s`,
and vice versa. -/
theorem claim9 {n : Nat} (s : CubeState n) :
    (clone s).faces = s.faces ∧ (clone s).move_history = s.move_history ∧
    ∀ ms : List String,
      (apply_move_sequence (cloneWorld s).2 ms, (cloneWorld s).1).2 = s ∧
      (apply_move_sequence (cloneWorld s).1 ms, (cloneWorld s).2).2 = clone s := by
  refine ⟨rfl, List.append_nil _, fun ms => ⟨rfl, rfl⟩⟩

/-- C10: an externally corrupted all-white 3×3 state is reported solved
while failing the color-histogram validity check, so `is_solved` does not
imply `is_valid_state`. -/
theorem claim10 : is_solved allWhite ∧ ¬ is_valid_state allWhite := by
  constructor
  · decide
  · decide

/-- C8: every recognized move leaves the face opposite the turned face
entirely unchanged, changes nothing on a non-turned face outside that
face's single listed strip, and each listed strip is a border row or
border column not on the turned or the opposite face. -/
theorem claim8 {n : Nat} (hn : 1 ≤ n) (m : String) (σ : Pos n → Pos n) (t : Face)
    (hσ : moveSrc n m = some σ) (ht : turnedFace m = some t) (c : Cube n) (p : Pos n) :
    (p.1 = oppositeFace t → (fun q => c (σ q)) p = c p) ∧
    (p.1 ≠ t → ¬ onStrip t p → (fun q => c (σ q)) p = c p) ∧
    (onStrip t p → p.1 ≠ t ∧ p.1 ≠ oppositeFace t ∧
      (p.2.1.val = 0 ∨ p.2.1.val = n - 1 ∨ p.2.2.val = 0 ∨ p.2.2.val = n - 1)) := by
  unfold moveSrc at hσ
  split at hσ <;> cases hσ <;>
    simp only [turnedFace] at ht <;> cases ht <;>
    obtain ⟨f, i, j⟩ := p <;>
    refine ⟨?_, ?_, ?_⟩ <;>
    cases f <;>
    simp_all [oppositeFace, onStrip, uSrc, upSrc, rSrc, rpSrc, fSrc, fpSrc,
      dSrc, dpSrc, lSrc, lpSrc, bSrc, bpSrc] <;>
    (try split_ifs) <;>
    simp_all <;>
    (try omega)

/-- C8 witness at size 3, token `U`: the opposite face `D` is untouched at
one of its stickers. -/
theorem claim8_witness :
    (fun q => initCube 3 (uSrc q)) (Face.D, (0 : Fin 3), (0 : Fin 3))
      = initCube 3 (Face.D, (0 : Fin 3), (0 : Fin 3)) :=
  (claim8 (by decide) "U" uSrc Face.U rfl rfl (initCube 3)
    (Face.D, (0 : Fin 3), (0 : Fin 3))).1 rfl

end RCube
